import Mathlib

/-!
Shallow embedding of the `scs` session manager (package `scs` plus its echo
`middleware` package) for checking the natural-language specification against
the code.

Modelling conventions:
* `time.Time` is modelled as `Int`: nanoseconds since the Unix epoch.  Go's
  zero `time.Time{}` is January 1 of year 1, i.e. Unix second -62135596800;
  `IsZero` compares against that instant.  `UTC()` is the identity here
  (locations are elided).
* `time.Duration` is `Int` (nanoseconds).
* The gob codec, the crypto token generator and the pluggable `Store` calls
  are effectful collaborators; their outcomes enter each operation as
  explicit arguments (`Except`/`Option` oracles), and the reference
  in-memory store effect on `Commit`/`Delete` is tracked as an association
  list from token to payload and expiry.
* `interface{}` values stored in the session are modelled by the inductive
  `GoValue`, one constructor per carrier type used by the typed accessors
  (`float64` is carried exactly; float rounding is elided).
* A Go `panic` is modelled as the `none` case of an `Option` result.
-/

namespace Scs

/- A `time.Time` is an `Int` of nanoseconds since the Unix epoch and a
`time.Duration` an `Int` of nanoseconds; both are kept as bare `Int` so the
arithmetic automation sees them. -/

/-- Unix nanoseconds of Go's zero `time.Time{}` (Jan 1, year 1 UTC). -/
def goZeroTime : Int := -62135596800 * 1000000000

/-- `time.Time.IsZero`. -/
def timeIsZero (t : Int) : Bool := t == goZeroTime

/-- `time.Time.Unix()`: whole seconds since the epoch, floored. -/
def timeUnix (t : Int) : Int := Int.fdiv t 1000000000

/-- `time.Unix(sec, 0)` as nanoseconds. -/
def timeFromUnix (sec : Int) : Int := sec * 1000000000

/-- Status represents the state of the session data during a request cycle. -/
inductive Status where
  | Unmodified
  | Modified
  | Destroyed
deriving DecidableEq, Repr

/-- Opaque payload bytes (`[]byte`). -/
abbrev Bytes := List Nat

/-- A value stored in the session map (`interface{}`), one constructor per
carrier type the typed accessors inspect.  `float64` is modelled by `Rat`. -/
inductive GoValue where
  | str (s : String)
  | bool (b : Bool)
  | int (i : Int)
  | float (q : Rat)
  | bytes (bs : Bytes)
  | time (t : Int)
deriving DecidableEq, Repr

/-- The session value map `map[string]interface{}`, as an association list. -/
abbrev ValuesMap := List (String × GoValue)

def valuesGet (m : ValuesMap) (k : String) : Option GoValue :=
  match m.find? (fun p => p.1 == k) with
  | some p => some p.2
  | none => none

def valuesErase (m : ValuesMap) (k : String) : ValuesMap :=
  m.filter (fun p => p.1 != k)

def valuesPut (m : ValuesMap) (k : String) (v : GoValue) : ValuesMap :=
  valuesErase m k ++ [(k, v)]

/-- The per-request mutable record `sessionData` (the mutex is elided:
operations are modelled as atomic state transformers). -/
structure SessionData where
  Deadline : Int
  status : Status
  token : String
  Values : ValuesMap
deriving DecidableEq, Repr

/-- `newSessionData`: fresh record with deadline `now + lifetime`. -/
def newSessionData (lifetime : Int) (now : Int) : SessionData :=
  { Deadline := now + lifetime
    status := Status.Unmodified
    token := ""
    Values := [] }

/-- The reference store contents: token ↦ (payload, expiry). -/
abbrev GoStore := List (String × Bytes × Int)

def storeLookup (st : GoStore) (tok : String) : Option (Bytes × Int) :=
  match st.find? (fun e => e.1 == tok) with
  | some e => some e.2
  | none => none

/-- Effect of `Store.Commit(token, b, expiry)`: insert or overwrite. -/
def storeCommitOp (st : GoStore) (tok : String) (b : Bytes) (expiry : Int) :
    GoStore :=
  st.filter (fun e => e.1 != tok) ++ [(tok, b, expiry)]

/-- Effect of `Store.Delete(token)`: remove if present, no-op otherwise. -/
def storeDeleteOp (st : GoStore) (tok : String) : GoStore :=
  st.filter (fun e => e.1 != tok)

/-- `SessionCookie` configuration. -/
structure SessionCookie where
  Name : String
  Domain : String
  HttpOnly : Bool
  Path : String
  Persist : Bool
  SameSite : Int
  Secure : Bool
deriving DecidableEq, Repr

/-- `Session` configuration (the `Store` object itself is passed to each
operation as explicit state). -/
structure Session where
  IdleTimeout : Int
  Lifetime : Int
  Cookie : SessionCookie
  contextKey : String
deriving DecidableEq, Repr

/-- The request scratch map (echo context `Get`/`Set`), restricted to the
session-data entries that are the only ones the library reads back. -/
abbrev Ctx := List (String × SessionData)

def ctxGet (c : Ctx) (k : String) : Option SessionData :=
  match c.find? (fun p => p.1 == k) with
  | some p => some p.2
  | none => none

def ctxSet (c : Ctx) (k : String) (sd : SessionData) : Ctx :=
  (k, sd) :: c.filter (fun p => p.1 != k)

/-- `getSessionDataFromContext`; `none` models the
`panic("scs: no session data in context")`. -/
def getSessionDataFromContext (s : Session) (c : Ctx) : Option SessionData :=
  ctxGet c s.contextKey

/-- Go's triple `(string, time.Time, error)` returned by `Session.Commit`. -/
structure CommitResult where
  token : String
  expiry : Int
  err : Option String
deriving DecidableEq, Repr

/-- `Session.Load` on the slow path.  `find` is the outcome of
`Store.Find(token)` (`Except.error` = store error, `ok none` = not found,
`ok (some b)` = found payload `b`); `dec` is the gob decoder for the two
exported fields `Deadline` and `Values`; `now` is `time.Now()`.  Returns the
session data together with the updated scratch map, or the surfaced error. -/
def sessionLoad (s : Session) (c : Ctx) (token : String)
    (find : Except String (Option Bytes))
    (dec : Bytes → Except String (Int × ValuesMap)) (now : Int) :
    Except String (SessionData × Ctx) :=
  match ctxGet c s.contextKey with
  | some sd => Except.ok (sd, c)
  | none =>
    if token = "" then
      let sd := newSessionData s.Lifetime now
      Except.ok (sd, ctxSet c s.contextKey sd)
    else
      match find with
      | Except.error e => Except.error e
      | Except.ok none =>
        let sd := newSessionData s.Lifetime now
        Except.ok (sd, ctxSet c s.contextKey sd)
      | Except.ok (some b) =>
        match dec b with
        | Except.error e => Except.error e
        | Except.ok (dl, vals) =>
          let sd0 : SessionData :=
            { Deadline := dl, status := Status.Unmodified,
              token := token, Values := vals }
          let sd := if s.IdleTimeout > 0
            then { sd0 with status := Status.Modified } else sd0
          Except.ok (sd, ctxSet c s.contextKey sd)

/-- The tail of `Session.Commit` after the token-minting step: encode, clamp
the expiry by the idle timeout, call `Store.Commit`. -/
def sessionCommitRest (s : Session) (sd : SessionData) (store : GoStore)
    (now : Int) (enc : Except String Bytes)
    (storeCommitErr : Option String) :
    CommitResult × SessionData × GoStore :=
  match enc with
  | Except.error e =>
    ({ token := "", expiry := goZeroTime, err := some e }, sd, store)
  | Except.ok b =>
    let expiry0 := sd.Deadline
    let expiry := if s.IdleTimeout > 0 then
        (if now + s.IdleTimeout < expiry0 then now + s.IdleTimeout else expiry0)
      else expiry0
    match storeCommitErr with
    | some e =>
      ({ token := "", expiry := goZeroTime, err := some e }, sd, store)
    | none =>
      ({ token := sd.token, expiry := expiry, err := none }, sd,
        storeCommitOp store sd.token b expiry)

/-- `Session.Commit` below the context lookup: acts on the resolved
`sessionData`.  `genTok` is the outcome of `generateToken()` (consulted only
when the token is empty), `enc` the outcome of `sd.encode()`, and
`storeCommitErr` the error returned by `Store.Commit`, if any.  Returns the
Go result triple, the mutated session data and the resulting store. -/
def sessionCommit (s : Session) (sd : SessionData) (store : GoStore)
    (now : Int) (genTok : Except String String)
    (enc : Except String Bytes) (storeCommitErr : Option String) :
    CommitResult × SessionData × GoStore :=
  if sd.token = "" then
    match genTok with
    | Except.error e =>
      ({ token := "", expiry := goZeroTime, err := some e }, sd, store)
    | Except.ok t =>
      sessionCommitRest s { sd with token := t } store now enc storeCommitErr
  else
    sessionCommitRest s sd store now enc storeCommitErr

/-- `Session.Destroy` below the context lookup.  `deleteErr` is the error
returned by `Store.Delete(sd.token)`, if any. -/
def sessionDestroy (s : Session) (sd : SessionData) (store : GoStore)
    (now : Int) (deleteErr : Option String) :
    Option String × SessionData × GoStore :=
  match deleteErr with
  | some e => (some e, sd, store)
  | none =>
    (none,
      { Deadline := now + s.Lifetime
        status := Status.Destroyed
        token := ""
        Values := [] },
      storeDeleteOp store sd.token)

/-- `Session.Put` below the context lookup. -/
def sessionPut (sd : SessionData) (k : String) (v : GoValue) : SessionData :=
  { sd with Values := valuesPut sd.Values k v, status := Status.Modified }

/-- `Session.Get` below the context lookup; `none` is Go's `nil`. -/
def sessionGet (sd : SessionData) (k : String) : Option GoValue :=
  valuesGet sd.Values k

/-- `Session.Pop` below the context lookup: returns the popped value (or
`none` for Go `nil` when the key is absent) and the resulting record. -/
def sessionPop (sd : SessionData) (k : String) : Option GoValue × SessionData :=
  match valuesGet sd.Values k with
  | none => (none, sd)
  | some v =>
    (some v,
      { sd with Values := valuesErase sd.Values k, status := Status.Modified })

/-- `Session.Remove` below the context lookup. -/
def sessionRemove (sd : SessionData) (k : String) : SessionData :=
  match valuesGet sd.Values k with
  | none => sd
  | some _ =>
    { sd with Values := valuesErase sd.Values k, status := Status.Modified }

/-- `Session.Exists` below the context lookup. -/
def sessionExists (sd : SessionData) (k : String) : Bool :=
  (valuesGet sd.Values k).isSome

/-- `Session.Keys` below the context lookup: all keys, sorted ascending. -/
def sessionKeys (sd : SessionData) : List String :=
  (sd.Values.map (fun p => p.1)).insertionSort (fun a b => a ≤ b)

/-- `Session.RenewToken` below the context lookup.  `deleteErr` is the error
from `Store.Delete(sd.token)`, `genTok` the outcome of `generateToken()`.
Note that the store deletion has already happened when token generation
fails. -/
def sessionRenewToken (s : Session) (sd : SessionData) (store : GoStore)
    (now : Int) (deleteErr : Option String)
    (genTok : Except String String) :
    Option String × SessionData × GoStore :=
  match deleteErr with
  | some e => (some e, sd, store)
  | none =>
    let store1 := storeDeleteOp store sd.token
    match genTok with
    | Except.error e => (some e, sd, store1)
    | Except.ok newToken =>
      (none,
        { sd with token := newToken
                  Deadline := now + s.Lifetime
                  status := Status.Modified },
        store1)

/-- Zero-value-on-mismatch projection used by `GetString`/`PopString`. -/
def asGoString (v : Option GoValue) : String :=
  match v with
  | some (GoValue.str x) => x
  | _ => ""

/-- Zero-value-on-mismatch projection used by `GetBool`/`PopBool`. -/
def asGoBool (v : Option GoValue) : Bool :=
  match v with
  | some (GoValue.bool x) => x
  | _ => false

/-- Zero-value-on-mismatch projection used by `GetInt`/`PopInt`. -/
def asGoInt (v : Option GoValue) : Int :=
  match v with
  | some (GoValue.int x) => x
  | _ => 0

/-- Zero-value-on-mismatch projection used by `GetFloat`/`PopFloat`. -/
def asGoFloat (v : Option GoValue) : Rat :=
  match v with
  | some (GoValue.float x) => x
  | _ => 0

/-- Zero-value-on-mismatch projection used by `GetBytes`/`PopBytes`
(Go's `nil` slice is modelled by the empty list). -/
def asGoBytes (v : Option GoValue) : Bytes :=
  match v with
  | some (GoValue.bytes x) => x
  | _ => []

/-- Zero-value-on-mismatch projection used by `GetTime`/`PopTime`. -/
def asInt (v : Option GoValue) : Int :=
  match v with
  | some (GoValue.time x) => x
  | _ => goZeroTime

/-- `Session.PopString` below the context lookup. -/
def sessionPopString (sd : SessionData) (k : String) : String × SessionData :=
  let r := sessionPop sd k
  (asGoString r.1, r.2)

/-- `Session.PopBool` below the context lookup. -/
def sessionPopBool (sd : SessionData) (k : String) : Bool × SessionData :=
  let r := sessionPop sd k
  (asGoBool r.1, r.2)

/-- `Session.PopInt` below the context lookup. -/
def sessionPopInt (sd : SessionData) (k : String) : Int × SessionData :=
  let r := sessionPop sd k
  (asGoInt r.1, r.2)

/-- `Session.PopFloat` below the context lookup. -/
def sessionPopFloat (sd : SessionData) (k : String) : Rat × SessionData :=
  let r := sessionPop sd k
  (asGoFloat r.1, r.2)

/-- `Session.PopBytes` below the context lookup. -/
def sessionPopBytes (sd : SessionData) (k : String) : Bytes × SessionData :=
  let r := sessionPop sd k
  (asGoBytes r.1, r.2)

/-- `Session.PopTime` below the context lookup. -/
def sessionPopTime (sd : SessionData) (k : String) : Int × SessionData :=
  let r := sessionPop sd k
  (asInt r.1, r.2)

/-! Context-level manager operations.  Each first resolves the current
`sessionData` via `getSessionDataFromContext`; the `none` result models the
panic raised when no session data is present.  Mutations of the (in Go,
pointer-shared) record are reflected by rebinding the context entry. -/

/-- `Session.Commit`. -/
def mgrCommit (s : Session) (c : Ctx) (store : GoStore) (now : Int)
    (genTok : Except String String) (enc : Except String Bytes)
    (storeCommitErr : Option String) :
    Option (CommitResult × Ctx × GoStore) :=
  match getSessionDataFromContext s c with
  | none => none
  | some sd =>
    let r := sessionCommit s sd store now genTok enc storeCommitErr
    some (r.1, ctxSet c s.contextKey r.2.1, r.2.2)

/-- `Session.Destroy`. -/
def mgrDestroy (s : Session) (c : Ctx) (store : GoStore) (now : Int)
    (deleteErr : Option String) :
    Option (Option String × Ctx × GoStore) :=
  match getSessionDataFromContext s c with
  | none => none
  | some sd =>
    let r := sessionDestroy s sd store now deleteErr
    some (r.1, ctxSet c s.contextKey r.2.1, r.2.2)

/-- `Session.Put`. -/
def mgrPut (s : Session) (c : Ctx) (k : String) (v : GoValue) : Option Ctx :=
  match getSessionDataFromContext s c with
  | none => none
  | some sd => some (ctxSet c s.contextKey (sessionPut sd k v))

/-- `Session.Get`. -/
def mgrGet (s : Session) (c : Ctx) (k : String) : Option (Option GoValue) :=
  match getSessionDataFromContext s c with
  | none => none
  | some sd => some (sessionGet sd k)

/-- `Session.Pop`. -/
def mgrPop (s : Session) (c : Ctx) (k : String) :
    Option (Option GoValue × Ctx) :=
  match getSessionDataFromContext s c with
  | none => none
  | some sd =>
    let r := sessionPop sd k
    some (r.1, ctxSet c s.contextKey r.2)

/-- `Session.Remove`. -/
def mgrRemove (s : Session) (c : Ctx) (k : String) : Option Ctx :=
  match getSessionDataFromContext s c with
  | none => none
  | some sd => some (ctxSet c s.contextKey (sessionRemove sd k))

/-- `Session.Exists`. -/
def mgrExists (s : Session) (c : Ctx) (k : String) : Option Bool :=
  match getSessionDataFromContext s c with
  | none => none
  | some sd => some (sessionExists sd k)

/-- `Session.Keys`. -/
def mgrKeys (s : Session) (c : Ctx) : Option (List String) :=
  match getSessionDataFromContext s c with
  | none => none
  | some sd => some (sessionKeys sd)

/-- `Session.RenewToken`. -/
def mgrRenewToken (s : Session) (c : Ctx) (store : GoStore) (now : Int)
    (deleteErr : Option String) (genTok : Except String String) :
    Option (Option String × Ctx × GoStore) :=
  match getSessionDataFromContext s c with
  | none => none
  | some sd =>
    let r := sessionRenewToken s sd store now deleteErr genTok
    some (r.1, ctxSet c s.contextKey r.2.1, r.2.2)

/-- `Session.Status`. -/
def mgrStatus (s : Session) (c : Ctx) : Option Status :=
  match getSessionDataFromContext s c with
  | none => none
  | some sd => some sd.status

/-- `Session.Token`. -/
def mgrToken (s : Session) (c : Ctx) : Option String :=
  match getSessionDataFromContext s c with
  | none => none
  | some sd => some sd.token

/-- `Session.GetString` (wraps `Get` with the type assertion). -/
def mgrGetString (s : Session) (c : Ctx) (k : String) : Option String :=
  (mgrGet s c k).map asGoString

/-- `Session.GetBool`. -/
def mgrGetBool (s : Session) (c : Ctx) (k : String) : Option Bool :=
  (mgrGet s c k).map asGoBool

/-- `Session.GetInt`. -/
def mgrGetInt (s : Session) (c : Ctx) (k : String) : Option Int :=
  (mgrGet s c k).map asGoInt

/-- `Session.GetFloat`. -/
def mgrGetFloat (s : Session) (c : Ctx) (k : String) : Option Rat :=
  (mgrGet s c k).map asGoFloat

/-- `Session.GetBytes`. -/
def mgrGetBytes (s : Session) (c : Ctx) (k : String) : Option Bytes :=
  (mgrGet s c k).map asGoBytes

/-- `Session.GetTime`. -/
def mgrGetTime (s : Session) (c : Ctx) (k : String) : Option Int :=
  (mgrGet s c k).map asInt

/-- `Session.PopString` (wraps `Pop` with the type assertion). -/
def mgrPopString (s : Session) (c : Ctx) (k : String) :
    Option (String × Ctx) :=
  (mgrPop s c k).map (fun r => (asGoString r.1, r.2))

/-- `Session.PopBool`. -/
def mgrPopBool (s : Session) (c : Ctx) (k : String) : Option (Bool × Ctx) :=
  (mgrPop s c k).map (fun r => (asGoBool r.1, r.2))

/-- `Session.PopInt`. -/
def mgrPopInt (s : Session) (c : Ctx) (k : String) : Option (Int × Ctx) :=
  (mgrPop s c k).map (fun r => (asGoInt r.1, r.2))

/-- `Session.PopFloat`. -/
def mgrPopFloat (s : Session) (c : Ctx) (k : String) : Option (Rat × Ctx) :=
  (mgrPop s c k).map (fun r => (asGoFloat r.1, r.2))

/-- `Session.PopBytes`. -/
def mgrPopBytes (s : Session) (c : Ctx) (k : String) : Option (Bytes × Ctx) :=
  (mgrPop s c k).map (fun r => (asGoBytes r.1, r.2))

/-- `Session.PopTime`. -/
def mgrPopTime (s : Session) (c : Ctx) (k : String) : Option (Int × Ctx) :=
  (mgrPop s c k).map (fun r => (asInt r.1, r.2))

/-! The cookie writer.  Response headers are an ordered multimap
(`http.Header` with `Add`), modelled as a list of key/value pairs. -/

/-- One `http.Cookie` as far as `WriteSessionCookie` fills it in. -/
structure HttpCookie where
  Name : String
  Value : String
  Path : String
  Domain : String
  Secure : Bool
  HttpOnly : Bool
  SameSite : Int
  Expires : Int
  MaxAge : Int
deriving DecidableEq, Repr

/-- `int(time.Until(expiry).Seconds() + 1)` in exact arithmetic (float64
rounding elided): `Seconds()` divides the nanosecond count by 10^9 as a real
number and `int(..)` truncates toward zero, so the whole expression is the
truncated quotient of `untilNs + 10^9` by `10^9`, which is Go/Lean T-division
(`Int.tdiv`). -/
def cookieMaxAge (untilNs : Int) : Int :=
  Int.tdiv (untilNs + 1000000000) 1000000000

/-- The cookie built by `WriteSessionCookie(c, token, expiry)` at wall-clock
time `now` (used by `time.Until`). -/
def writeSessionCookieCookie (s : Session) (token : String) (expiry : Int)
    (now : Int) : HttpCookie :=
  let cookie : HttpCookie :=
    { Name := s.Cookie.Name
      Value := token
      Path := s.Cookie.Path
      Domain := s.Cookie.Domain
      Secure := s.Cookie.Secure
      HttpOnly := s.Cookie.HttpOnly
      SameSite := s.Cookie.SameSite
      Expires := goZeroTime
      MaxAge := 0 }
  if timeIsZero expiry then
    { cookie with Expires := timeFromUnix 1, MaxAge := -1 }
  else if s.Cookie.Persist then
    { cookie with Expires := timeFromUnix (timeUnix expiry + 1)
                  MaxAge := cookieMaxAge (expiry - now) }
  else
    cookie

/-- Response headers (`http.Header` restricted to the `Add` / ranged-read
operations the code uses), as an ordered list of key/value pairs. -/
abbrev Headers := List (String × String)

/-- `Header().Add(key, value)`. -/
def headerAdd (h : Headers) (k v : String) : Headers := h ++ [(k, v)]

/-- `Header()[key]`: the list of values stored under `key`. -/
def headerValues (h : Headers) (k : String) : List String :=
  (h.filter (fun p => p.1 == k)).map (fun p => p.2)

/-- `AddHeaderIfMissing`: add unless the exact value is already present. -/
def addHeaderIfMissing (h : Headers) (k v : String) : Headers :=
  if (headerValues h k).contains v then h else headerAdd h k v

/-- `cookie.String()` — net/http serialization, elided to a representative
name=value rendering (its exact text plays no role in any claim). -/
def cookieSerialize (cookie : HttpCookie) : String :=
  cookie.Name ++ "=" ++ cookie.Value

/-- Header effect of `WriteSessionCookie`: one unconditional `Set-Cookie`
`Add`, then the two conditional caching headers. -/
def writeSessionCookie (s : Session) (token : String) (expiry : Int)
    (now : Int) (h : Headers) : Headers :=
  let cookie := writeSessionCookieCookie s token expiry now
  let h1 := headerAdd h ("Set-Cookie") (cookieSerialize cookie)
  let h2 := addHeaderIfMissing h1 ("Cache-Control") ("no-cache=\"Set-Cookie\"")
  addHeaderIfMissing h2 ("Vary") ("Cookie")

/-- A sequence of `WriteSessionCookie` calls on one response, each with its
own manager, token, expiry and wall-clock instant. -/
def writeSessionCookieSeq (calls : List (Session × String × Int × Int))
    (h : Headers) : Headers :=
  match calls with
  | [] => h
  | p :: rest =>
    writeSessionCookieSeq rest (writeSessionCookie p.1 p.2.1 p.2.2.1 p.2.2.2 h)

/-! The echo middleware envelope returned by `SessionsWithConfig` (the
configuration fix-up and registry work in that function happen once, before
the returned closure, and do not affect the per-request control flow modelled
here).  The envelope is polymorphic in the request state `σ`; the `Skipper`
and the `LoadCheck` / `SaveCheck` hooks and the `next` handler are abstract
state transformers that may fail. -/

/-- The per-request handler produced by `SessionsWithConfig`. -/
def sessionsWithConfigRun {σ : Type} (skipper : σ → Bool)
    (loadCheck saveCheck next : σ → σ × Option String) (st : σ) :
    σ × Option String :=
  if skipper st then next st
  else
    let r1 := loadCheck st
    match r1.2 with
    | some e =>
      (r1.1, some ("could not load the session in SessionsWithConfig; " ++ e))
    | none =>
      let r2 := saveCheck r1.1
      match r2.2 with
      | some e =>
        (r2.1,
          some ("could not save the session in SessionsWithConfig; " ++ e))
      | none => next r2.1

/-- Observable steps of the middleware envelope, for stating order. -/
inductive MwEvent where
  | skipperCheck
  | loadCheck
  | saveCheck
  | handler
deriving DecidableEq, Repr

/-- `sessionsWithConfigRun` instrumented with an event trace: the state is
the list of executed steps, each hook appends its event, and the hook
outcomes are fixed by `skip`, `loadErr` and `saveErr`. -/
def mwTrace (skip : Bool) (loadErr saveErr : Option String) :
    List MwEvent × Option String :=
  sessionsWithConfigRun (fun _ => skip)
    (fun tr => (tr ++ [MwEvent.loadCheck], loadErr))
    (fun tr => (tr ++ [MwEvent.saveCheck], saveErr))
    (fun tr => (tr ++ [MwEvent.handler], none))
    [MwEvent.skipperCheck]

/-! Reachability by manager operations, for the `Destroyed` invariant: one
step is one manager operation applied to the current session record and
store, with arbitrary arguments and arbitrary collaborator outcomes. -/

/-- One manager operation on the pair (session record, store). -/
inductive MgrStep (s : Session) :
    SessionData × GoStore → SessionData × GoStore → Prop where
  | put (sd : SessionData) (st : GoStore) (k : String) (v : GoValue) :
      MgrStep s (sd, st) (sessionPut sd k v, st)
  | pop (sd : SessionData) (st : GoStore) (k : String) :
      MgrStep s (sd, st) ((sessionPop sd k).2, st)
  | remove (sd : SessionData) (st : GoStore) (k : String) :
      MgrStep s (sd, st) (sessionRemove sd k, st)
  | commit (sd : SessionData) (st : GoStore) (now : Int)
      (genTok : Except String String) (enc : Except String Bytes)
      (storeCommitErr : Option String) :
      MgrStep s (sd, st)
        ((sessionCommit s sd st now genTok enc storeCommitErr).2.1,
         (sessionCommit s sd st now genTok enc storeCommitErr).2.2)
  | destroy (sd : SessionData) (st : GoStore) (now : Int)
      (deleteErr : Option String) :
      MgrStep s (sd, st)
        ((sessionDestroy s sd st now deleteErr).2.1,
         (sessionDestroy s sd st now deleteErr).2.2)
  | renewToken (sd : SessionData) (st : GoStore) (now : Int)
      (deleteErr : Option String) (genTok : Except String String) :
      MgrStep s (sd, st)
        ((sessionRenewToken s sd st now deleteErr genTok).2.1,
         (sessionRenewToken s sd st now deleteErr genTok).2.2)

/-- Reachability: any finite sequence of manager operations. -/
def ReachableSD (s : Session) :
    SessionData × GoStore → SessionData × GoStore → Prop :=
  Relation.ReflTransGen (MgrStep s)

/-- `NewSession()` with the default options; the context key is the one the
process counter generates for its first manager. -/
def newSession : Session :=
  { IdleTimeout := 0
    Lifetime := 24 * 3600 * 1000000000
    Cookie :=
      { Name := "session"
        Domain := ""
        HttpOnly := true
        Path := "/"
        Persist := true
        Secure := false
        SameSite := 2 }
    contextKey := "session.1" }

/-- Number of header entries carrying exactly the key/value pair `(k, v)`. -/
def headerCount (h : Headers) (k v : String) : Nat :=
  (h.filter (fun p => p.1 == k && p.2 == v)).length

/-- Ceiling of `d` nanoseconds in whole seconds — the quantity the
specification's words prescribe for the cookie `MaxAge`
(round `expiry - now` up to seconds). -/
def specCeilSeconds (d : Int) : Int :=
  -(Int.fdiv (-d) 1000000000)

/-! Helper lemmas about the association-list store and the header multimap. -/

theorem find_filter_ne_none (st : GoStore) (tok : String) :
    (st.filter (fun e => e.1 != tok)).find? (fun e => e.1 == tok) = none := by
  induction st with
  | nil => rfl
  | cons hd tl ih =>
    rw [List.filter_cons]
    by_cases h : hd.1 = tok
    · simp [h, ih]
    · simp [List.find?_cons, h, ih]

theorem storeLookup_commitOp_self (st : GoStore) (tok : String) (b : Bytes)
    (e : Int) : storeLookup (storeCommitOp st tok b e) tok = some (b, e) := by
  unfold storeLookup storeCommitOp
  rw [List.find?_append, find_filter_ne_none]
  simp [List.find?]

theorem storeLookup_deleteOp_self (st : GoStore) (tok : String) :
    storeLookup (storeDeleteOp st tok) tok = none := by
  unfold storeLookup storeDeleteOp
  rw [find_filter_ne_none]

theorem find_filter_ne_comm (st : GoStore) (tok tok2 : String)
    (h : tok2 ≠ tok) :
    (st.filter (fun e => e.1 != tok)).find? (fun e => e.1 == tok2)
      = st.find? (fun e => e.1 == tok2) := by
  induction st with
  | nil => rfl
  | cons hd tl ih =>
    rw [List.filter_cons]
    have h3 : ¬ tok = tok2 := fun hx => h hx.symm
    by_cases h1 : hd.1 = tok
    · have h2 : ¬ hd.1 = tok2 := by
        intro hx
        exact h (hx ▸ h1)
      simp [List.find?_cons, h1, h2, h3, ih]
    · by_cases h2 : hd.1 = tok2
      · simp [List.find?_cons, h1, h2, h3, h, ih]
      · simp [List.find?_cons, h1, h2, h3, h, ih]

theorem storeLookup_deleteOp_other (st : GoStore) (tok tok2 : String)
    (h : tok2 ≠ tok) :
    storeLookup (storeDeleteOp st tok) tok2 = storeLookup st tok2 := by
  unfold storeLookup storeDeleteOp
  rw [find_filter_ne_comm st tok tok2 h]

theorem headerCount_add (h : Headers) (k v k2 v2 : String) :
    headerCount (headerAdd h k2 v2) k v
      = headerCount h k v + (if k2 = k ∧ v2 = v then 1 else 0) := by
  unfold headerCount headerAdd
  rw [List.filter_append, List.length_append]
  by_cases h1 : k2 = k
  · by_cases h2 : v2 = v
    · simp [h1, h2]
    · simp [h1, h2]
  · simp [h1]

theorem headerValues_contains_iff (h : Headers) (k v : String) :
    (headerValues h k).contains v = true ↔ headerCount h k v ≠ 0 := by
  induction h with
  | nil => simp [headerValues, headerCount]
  | cons hd tl ih =>
    unfold headerValues headerCount at ih ⊢
    rw [List.filter_cons, List.filter_cons]
    by_cases h1 : hd.1 = k
    · by_cases h2 : hd.2 = v
      · simp [h1, h2]
      · have h2x : ¬ v = hd.2 := fun hx => h2 hx.symm
        simp [h1, h2, h2x, ih]
    · simp [h1, ih]

theorem addHeaderIfMissing_count_self (h : Headers) (k v : String) :
    headerCount (addHeaderIfMissing h k v) k v
      = if headerCount h k v = 0 then 1 else headerCount h k v := by
  unfold addHeaderIfMissing
  by_cases hc : (headerValues h k).contains v = true
  · have hne := (headerValues_contains_iff h k v).1 hc
    rw [if_pos hc, if_neg hne]
  · have h0 : headerCount h k v = 0 := by
      by_contra hne
      exact hc ((headerValues_contains_iff h k v).2 hne)
    rw [if_neg hc, if_pos h0, headerCount_add, h0]
    simp

theorem addHeaderIfMissing_count_other (h : Headers) (k v k2 v2 : String)
    (hne : ¬ (k2 = k ∧ v2 = v)) :
    headerCount (addHeaderIfMissing h k2 v2) k v = headerCount h k v := by
  unfold addHeaderIfMissing
  by_cases hc : (headerValues h k2).contains v2 = true
  · rw [if_pos hc]
  · rw [if_neg hc, headerCount_add, if_neg hne]
    simp

theorem writeSessionCookie_count_cc (s : Session) (t : String)
    (e n : Int) (h : Headers) :
    headerCount (writeSessionCookie s t e n h)
        ("Cache-Control") ("no-cache=\"Set-Cookie\"")
      = if headerCount h ("Cache-Control") ("no-cache=\"Set-Cookie\"") = 0
        then 1
        else headerCount h ("Cache-Control") ("no-cache=\"Set-Cookie\"") := by
  unfold writeSessionCookie
  rw [addHeaderIfMissing_count_other _ _ _ _ _ (by decide)]
  rw [addHeaderIfMissing_count_self]
  rw [headerCount_add]
  simp

theorem writeSessionCookie_count_vary (s : Session) (t : String)
    (e n : Int) (h : Headers) :
    headerCount (writeSessionCookie s t e n h) ("Vary") ("Cookie")
      = if headerCount h ("Vary") ("Cookie") = 0
        then 1
        else headerCount h ("Vary") ("Cookie") := by
  unfold writeSessionCookie
  rw [addHeaderIfMissing_count_self]
  rw [addHeaderIfMissing_count_other _ _ _ _ _ (by decide)]
  rw [headerCount_add]
  simp

theorem seq_count_one (k v : String)
    (hw : ∀ (s : Session) (t : String) (e n : Int) (h : Headers),
      headerCount (writeSessionCookie s t e n h) k v
        = if headerCount h k v = 0 then 1 else headerCount h k v) :
    ∀ (calls : List (Session × String × Int × Int)) (h : Headers),
      (headerCount h k v = 1 →
        headerCount (writeSessionCookieSeq calls h) k v = 1)
      ∧ (headerCount h k v = 0 → calls ≠ [] →
          headerCount (writeSessionCookieSeq calls h) k v = 1) := by
  intro calls
  induction calls with
  | nil =>
    intro h
    exact ⟨fun h1 => h1, fun _ hne => absurd rfl hne⟩
  | cons p rest ih =>
    intro h
    constructor
    · intro h1
      have hc : headerCount (writeSessionCookie p.1 p.2.1 p.2.2.1 p.2.2.2 h)
          k v = 1 := by
        rw [hw, h1]
        simp
      exact (ih _).1 hc
    · intro h0 _
      have hc : headerCount (writeSessionCookie p.1 p.2.1 p.2.2.1 p.2.2.2 h)
          k v = 1 := by
        rw [hw, h0]
        simp
      exact (ih _).1 hc

/-! Claim theorems. -/

/-- Claim C1, counterexample: on a non-skipped request with no hook errors
the envelope produced by `SessionsWithConfig` runs `SaveCheck` before the
user handler, so its trace is Skipper, LoadCheck, SaveCheck, handler — not
the claimed Skipper, LoadCheck, handler, SaveCheck. -/
theorem sessionsWithConfig_save_before_handler_cex :
    (mwTrace false none none).1
      = [MwEvent.skipperCheck, MwEvent.loadCheck, MwEvent.saveCheck,
         MwEvent.handler]
    ∧ (mwTrace false none none).1
      ≠ [MwEvent.skipperCheck, MwEvent.loadCheck, MwEvent.handler,
         MwEvent.saveCheck] := by
  decide

/-- Claim C1, amended: the middleware produced by `SessionsWithConfig`
executes, for every request not skipped by the Skipper, the Skipper check,
then `LoadCheck`, then `SaveCheck`, and only then the user handler; a
`LoadCheck` error skips both `SaveCheck` and the handler and a `SaveCheck`
error skips the handler, the error being wrapped and surfaced.  In
particular `SaveCheck` runs before the user handler, so mutations the
handler makes are not seen by this request's `SaveCheck`. -/
theorem sessionsWithConfig_order_amended :
    (∀ le se : Option String,
      mwTrace true le se = ([MwEvent.skipperCheck, MwEvent.handler], none))
    ∧ mwTrace false none none
        = ([MwEvent.skipperCheck, MwEvent.loadCheck, MwEvent.saveCheck,
            MwEvent.handler], none)
    ∧ (∀ (e : String) (se : Option String),
        mwTrace false (some e) se
          = ([MwEvent.skipperCheck, MwEvent.loadCheck],
             some ("could not load the session in SessionsWithConfig; " ++ e)))
    ∧ (∀ e : String,
        mwTrace false none (some e)
          = ([MwEvent.skipperCheck, MwEvent.loadCheck, MwEvent.saveCheck],
             some ("could not save the session in SessionsWithConfig; " ++ e))) :=
  ⟨fun _ _ => rfl, rfl, fun _ _ => rfl, fun _ => rfl⟩

/-- Claim C3: a successful Commit mints a token only when the current token
is empty, computes the expiry as min(deadline, now + IdleTimeout) when
IdleTimeout > 0 and exactly the deadline when IdleTimeout = 0, and passes
the returned token, the encoded payload and that same expiry to
`Store.Commit`. -/
theorem commit_token_and_expiry (s : Session) (sd : SessionData)
    (store : GoStore) (now : Int) (t : String) (b : Bytes) :
    (sessionCommit s sd store now (Except.ok t) (Except.ok b) none).1.err
      = none
    ∧ (sessionCommit s sd store now (Except.ok t) (Except.ok b) none).1.token
      = (if sd.token = "" then t else sd.token)
    ∧ (0 < s.IdleTimeout →
        (sessionCommit s sd store now (Except.ok t) (Except.ok b)
            none).1.expiry
          = min sd.Deadline (now + s.IdleTimeout))
    ∧ (s.IdleTimeout = 0 →
        (sessionCommit s sd store now (Except.ok t) (Except.ok b)
            none).1.expiry
          = sd.Deadline)
    ∧ storeLookup
        (sessionCommit s sd store now (Except.ok t) (Except.ok b) none).2.2
        (sessionCommit s sd store now (Except.ok t) (Except.ok b) none).1.token
      = some (b,
          (sessionCommit s sd store now (Except.ok t) (Except.ok b)
              none).1.expiry) := by
  have key : ∀ sd2 : SessionData,
      sessionCommitRest s sd2 store now (Except.ok b) none
        = ({ token := sd2.token
             expiry := if s.IdleTimeout > 0 then
                 (if now + s.IdleTimeout < sd2.Deadline then
                   now + s.IdleTimeout else sd2.Deadline)
               else sd2.Deadline
             err := none }, sd2,
           storeCommitOp store sd2.token b
             (if s.IdleTimeout > 0 then
                 (if now + s.IdleTimeout < sd2.Deadline then
                   now + s.IdleTimeout else sd2.Deadline)
               else sd2.Deadline)) :=
    fun _ => rfl
  by_cases hT : sd.token = ""
  · simp only [sessionCommit, if_pos hT, key]
    refine ⟨by simp, by simp [hT], ?_, ?_, ?_⟩
    · intro h
      simp only [if_pos h]
      rw [min_def]
      split_ifs <;> omega
    · intro h
      simp [h]
    · exact storeLookup_commitOp_self store t b _
  · simp only [sessionCommit, if_neg hT, key]
    refine ⟨by simp, by simp [hT], ?_, ?_, ?_⟩
    · intro h
      simp only [if_pos h]
      rw [min_def]
      split_ifs <;> omega
    · intro h
      simp [h]
    · exact storeLookup_commitOp_self store sd.token b _

/-- Witness for the Commit token/expiry theorem: with an idle timeout of
600 s and a fresh session the expiry is clamped to now + IdleTimeout, and
with the default manager (no idle timeout) it is exactly the deadline. -/
theorem commit_token_and_expiry_witness :
    (sessionCommit { newSession with IdleTimeout := 600000000000 }
        (newSessionData 86400000000000 0) [] 0 (Except.ok ("T"))
        (Except.ok [7]) none).1.expiry
      = min (newSessionData 86400000000000 0).Deadline (0 + 600000000000)
    ∧ (sessionCommit newSession (newSessionData 86400000000000 0) [] 0
        (Except.ok ("T")) (Except.ok [7]) none).1.expiry
      = (newSessionData 86400000000000 0).Deadline :=
  ⟨(commit_token_and_expiry { newSession with IdleTimeout := 600000000000 }
      (newSessionData 86400000000000 0) [] 0 ("T") [7]).2.2.1 (by decide),
   (commit_token_and_expiry newSession (newSessionData 86400000000000 0) [] 0
      ("T") [7]).2.2.2.1 (by decide)⟩

/-- Claim C4, counterexample: popping an absent key through a typed Pop
variant leaves the status Unmodified — it is not set to Modified regardless
of existence as claimed. -/
theorem typed_pop_missing_key_cex :
    (sessionPopString
        { Deadline := 0, status := Status.Unmodified, token := "",
          Values := [] } ("k")).2.status = Status.Unmodified
    ∧ (sessionPopBool
        { Deadline := 0, status := Status.Unmodified, token := "",
          Values := [] } ("k")).2.status = Status.Unmodified
    ∧ (sessionPopInt
        { Deadline := 0, status := Status.Unmodified, token := "",
          Values := [] } ("k")).2.status = Status.Unmodified
    ∧ (sessionPopFloat
        { Deadline := 0, status := Status.Unmodified, token := "",
          Values := [] } ("k")).2.status = Status.Unmodified
    ∧ (sessionPopBytes
        { Deadline := 0, status := Status.Unmodified, token := "",
          Values := [] } ("k")).2.status = Status.Unmodified
    ∧ (sessionPopTime
        { Deadline := 0, status := Status.Unmodified, token := "",
          Values := [] } ("k")).2.status = Status.Unmodified
    ∧ Status.Unmodified ≠ Status.Modified := by
  decide

/-- Claim C4, amended: every typed Pop variant returns the zero value of the
requested type when the key is absent or the stored value has a different
runtime type, and sets the status to Modified (deleting the key) exactly
when the key existed; when the key is absent the session data is unchanged
and the status is not touched. -/
theorem typed_pop_status_amended (sd : SessionData) (k : String) :
    (valuesGet sd.Values k = none →
      sessionPopString sd k = ("", sd)
      ∧ sessionPopBool sd k = (false, sd)
      ∧ sessionPopInt sd k = (0, sd)
      ∧ sessionPopFloat sd k = (0, sd)
      ∧ sessionPopBytes sd k = ([], sd)
      ∧ sessionPopTime sd k = (goZeroTime, sd))
    ∧ (∀ v : GoValue, valuesGet sd.Values k = some v →
        sessionPopString sd k
          = (asGoString (some v),
             { sd with Values := valuesErase sd.Values k,
                       status := Status.Modified })
        ∧ sessionPopBool sd k
          = (asGoBool (some v),
             { sd with Values := valuesErase sd.Values k,
                       status := Status.Modified })
        ∧ sessionPopInt sd k
          = (asGoInt (some v),
             { sd with Values := valuesErase sd.Values k,
                       status := Status.Modified })
        ∧ sessionPopFloat sd k
          = (asGoFloat (some v),
             { sd with Values := valuesErase sd.Values k,
                       status := Status.Modified })
        ∧ sessionPopBytes sd k
          = (asGoBytes (some v),
             { sd with Values := valuesErase sd.Values k,
                       status := Status.Modified })
        ∧ sessionPopTime sd k
          = (asInt (some v),
             { sd with Values := valuesErase sd.Values k,
                       status := Status.Modified })) := by
  constructor
  · intro h
    simp [sessionPopString, sessionPopBool, sessionPopInt, sessionPopFloat,
      sessionPopBytes, sessionPopTime, sessionPop, h, asGoString, asGoBool,
      asGoInt, asGoFloat, asGoBytes, asInt]
  · intro v h
    simp [sessionPopString, sessionPopBool, sessionPopInt, sessionPopFloat,
      sessionPopBytes, sessionPopTime, sessionPop, h]

/-- Witness for the typed-Pop theorem: both the absent-key and the
present-key case at a concrete record. -/
theorem typed_pop_status_amended_witness :
    sessionPopString
        { Deadline := 0, status := Status.Unmodified, token := "",
          Values := [] } ("k") =
      ("", { Deadline := 0, status := Status.Unmodified, token := "",
             Values := [] })
    ∧ sessionPopString
        { Deadline := 0, status := Status.Unmodified, token := "",
          Values := [(("k"), GoValue.str ("x"))] } ("k")
      = (asGoString (some (GoValue.str ("x"))),
         { Deadline := 0, status := Status.Modified, token := "",
           Values := valuesErase [(("k"), GoValue.str ("x"))] ("k") }) :=
  ⟨((typed_pop_status_amended
      { Deadline := 0, status := Status.Unmodified, token := "",
        Values := [] } ("k")).1 (by decide)).1,
   ((typed_pop_status_amended
      { Deadline := 0, status := Status.Unmodified, token := "",
        Values := [(("k"), GoValue.str ("x"))] } ("k")).2
      (GoValue.str ("x")) (by decide)).1⟩

/-- Claim C5, counterexample: with Persist and an expiry exactly 100 s away
the cookie MaxAge is 101, not the claimed ceiling 100; and with an expiry
100.5 s after the epoch the Expires attribute is 101 s, not the claimed
expiry + 1 s = 101.5 s. -/
theorem writeSessionCookie_rounding_cex :
    (writeSessionCookieCookie newSession ("t") (100 * 1000000000) 0).MaxAge
      = 101
    ∧ specCeilSeconds (100 * 1000000000 - 0) = 100
    ∧ (101 : Int) ≠ 100
    ∧ (writeSessionCookieCookie newSession ("t") 100500000000 0).Expires
      = 101 * 1000000000
    ∧ 100500000000 + 1000000000 ≠ (101 * 1000000000 : Int) := by
  decide

/-- Claim C5, amended: when the expiry is the zero timestamp the cookie gets
Expires = Unix time 1 and MaxAge = -1; otherwise, when Persist is set,
Expires is the expiry truncated to whole seconds plus one second, and MaxAge
is the floor of the remaining seconds plus one — which equals the claimed
ceiling exactly when the remaining duration is not a whole number of
seconds, and is one more than the ceiling when it is. -/
theorem writeSessionCookie_attrs_amended (s : Session) (token : String)
    (expiry now : Int) :
    (timeIsZero expiry = true →
      (writeSessionCookieCookie s token expiry now).Expires = timeFromUnix 1
      ∧ (writeSessionCookieCookie s token expiry now).MaxAge = -1)
    ∧ (timeIsZero expiry = false → s.Cookie.Persist = true →
        (writeSessionCookieCookie s token expiry now).Expires
          = timeFromUnix (timeUnix expiry + 1)
        ∧ (now ≤ expiry →
            (writeSessionCookieCookie s token expiry now).MaxAge
              = Int.fdiv (expiry - now) 1000000000 + 1)
        ∧ (now ≤ expiry → ¬ ((1000000000 : Int) ∣ (expiry - now)) →
            (writeSessionCookieCookie s token expiry now).MaxAge
              = specCeilSeconds (expiry - now))
        ∧ ((1000000000 : Int) ∣ (expiry - now) →
            (writeSessionCookieCookie s token expiry now).MaxAge
              = specCeilSeconds (expiry - now) + 1)) := by
  constructor
  · intro hz
    simp [writeSessionCookieCookie, hz]
  · intro hz hp
    have hred : writeSessionCookieCookie s token expiry now
        = { Name := s.Cookie.Name, Value := token, Path := s.Cookie.Path,
            Domain := s.Cookie.Domain, Secure := s.Cookie.Secure,
            HttpOnly := s.Cookie.HttpOnly, SameSite := s.Cookie.SameSite,
            Expires := timeFromUnix (timeUnix expiry + 1),
            MaxAge := cookieMaxAge (expiry - now) } := by
      simp [writeSessionCookieCookie, hz, hp]
    rw [hred]
    refine ⟨rfl, ?_, ?_, ?_⟩
    · intro hle
      show Int.tdiv (expiry - now + 1000000000) 1000000000
        = Int.fdiv (expiry - now) 1000000000 + 1
      rw [Int.tdiv_eq_ediv (by omega) (by omega),
        Int.fdiv_eq_ediv _ (by omega)]
      omega
    · intro hle hnd
      show Int.tdiv (expiry - now + 1000000000) 1000000000
        = -(Int.fdiv (-(expiry - now)) 1000000000)
      rw [Int.tdiv_eq_ediv (by omega) (by omega),
        Int.fdiv_eq_ediv _ (by omega)]
      omega
    · intro hd
      obtain ⟨q, hq⟩ := hd
      show Int.tdiv (expiry - now + 1000000000) 1000000000
        = -(Int.fdiv (-(expiry - now)) 1000000000) + 1
      rw [hq,
        show (1000000000 : Int) * q + 1000000000
            = 1000000000 * (q + 1) by ring,
        show -((1000000000 : Int) * q) = 1000000000 * (-q) by ring,
        Int.mul_tdiv_cancel_left _ (by norm_num),
        Int.mul_fdiv_cancel_left _ (by norm_num)]
      ring

/-- Witness for the cookie-attribute theorem: at a 100.5 s remaining
duration MaxAge is the ceiling 101, and at the zero timestamp the clearing
attributes are emitted. -/
theorem writeSessionCookie_attrs_amended_witness :
    (writeSessionCookieCookie newSession ("t") 100500000000 0).MaxAge
      = specCeilSeconds (100500000000 - 0)
    ∧ (writeSessionCookieCookie newSession ("t") goZeroTime 0).Expires
      = timeFromUnix 1
    ∧ (writeSessionCookieCookie newSession ("t") goZeroTime 0).MaxAge = -1 :=
  ⟨((writeSessionCookie_attrs_amended newSession ("t") 100500000000 0).2
      (by decide) (by decide)).2.2.1 (by decide) (by decide),
   ((writeSessionCookie_attrs_amended newSession ("t") goZeroTime 0).1
      (by decide)).1,
   ((writeSessionCookie_attrs_amended newSession ("t") goZeroTime 0).1
      (by decide)).2⟩

/-- Commit never changes the status or the values of the session record,
whatever the collaborator outcomes. -/
theorem sessionCommit_preserves (s : Session) (sd : SessionData)
    (store : GoStore) (now : Int) (g : Except String String)
    (e : Except String Bytes) (se : Option String) :
    (sessionCommit s sd store now g e se).2.1.status = sd.status
    ∧ (sessionCommit s sd store now g e se).2.1.Values = sd.Values := by
  unfold sessionCommit sessionCommitRest
  by_cases hT : sd.token = "" <;> cases g <;> cases e <;> cases se <;>
    simp [hT]

/-- One manager operation preserves the property that a Destroyed record
has an empty value map. -/
theorem mgrStep_destroyed_values (s : Session) {a b : SessionData × GoStore}
    (h : MgrStep s a b)
    (inv : a.1.status = Status.Destroyed → a.1.Values = []) :
    b.1.status = Status.Destroyed → b.1.Values = [] := by
  cases h with
  | put sd st k v =>
    intro hb
    simp [sessionPut] at hb
  | pop sd st k =>
    intro hb
    unfold sessionPop at hb ⊢
    cases hv : valuesGet sd.Values k with
    | none =>
      simp [hv] at hb ⊢
      exact inv hb
    | some v => simp [hv] at hb
  | remove sd st k =>
    intro hb
    unfold sessionRemove at hb ⊢
    cases hv : valuesGet sd.Values k with
    | none =>
      simp [hv] at hb ⊢
      exact inv hb
    | some v => simp [hv] at hb
  | commit sd st now g e se =>
    intro hb
    have hp := sessionCommit_preserves s sd st now g e se
    rw [hp.2]
    exact inv (hp.1 ▸ hb)
  | destroy sd st now de =>
    intro hb
    unfold sessionDestroy at hb ⊢
    cases de with
    | some e =>
      simp at hb ⊢
      exact inv hb
    | none => simp
  | renewToken sd st now de g =>
    intro hb
    unfold sessionRenewToken at hb ⊢
    cases de with
    | some e =>
      simp at hb ⊢
      exact inv hb
    | none =>
      cases g with
      | error e =>
        simp at hb ⊢
        exact inv hb
      | ok t => simp at hb

/-- Claim C2, counterexample: the record reached by Destroy followed by a
direct Commit has status Destroyed and a non-empty token, refuting the
claimed invariant that Destroyed implies an empty token for every record
reachable by manager operations. -/
theorem destroyed_nonempty_token_cex :
    ReachableSD newSession (newSessionData 86400000000000 0, [])
      ((sessionCommit newSession
          (sessionDestroy newSession (newSessionData 86400000000000 0) [] 0
            none).2.1
          (sessionDestroy newSession (newSessionData 86400000000000 0) [] 0
            none).2.2
          0 (Except.ok ("T")) (Except.ok [7]) none).2.1,
       (sessionCommit newSession
          (sessionDestroy newSession (newSessionData 86400000000000 0) [] 0
            none).2.1
          (sessionDestroy newSession (newSessionData 86400000000000 0) [] 0
            none).2.2
          0 (Except.ok ("T")) (Except.ok [7]) none).2.2)
    ∧ (sessionCommit newSession
        (sessionDestroy newSession (newSessionData 86400000000000 0) [] 0
          none).2.1
        (sessionDestroy newSession (newSessionData 86400000000000 0) [] 0
          none).2.2
        0 (Except.ok ("T")) (Except.ok [7]) none).2.1.status
      = Status.Destroyed
    ∧ (sessionCommit newSession
        (sessionDestroy newSession (newSessionData 86400000000000 0) [] 0
          none).2.1
        (sessionDestroy newSession (newSessionData 86400000000000 0) [] 0
          none).2.2
        0 (Except.ok ("T")) (Except.ok [7]) none).2.1.token ≠ "" := by
  refine ⟨?_, by decide, by decide⟩
  exact Relation.ReflTransGen.tail
    (Relation.ReflTransGen.single
      (MgrStep.destroy (newSessionData 86400000000000 0) [] 0 none))
    (MgrStep.commit _ _ 0 (Except.ok ("T")) (Except.ok [7]) none)

/-- Claim C2, amended: a successful Destroy leaves exactly status Destroyed,
empty token, empty values and deadline now + Lifetime; and for every record
reachable by manager operations, status Destroyed implies the values map is
empty.  The token half of the claimed invariant does not survive a direct
Commit on a destroyed record, which mints a token while leaving the status
Destroyed. -/
theorem destroy_post_and_invariant :
    (∀ (s : Session) (sd : SessionData) (store : GoStore) (now : Int),
      (sessionDestroy s sd store now none).2.1
        = { Deadline := now + s.Lifetime, status := Status.Destroyed,
            token := "", Values := [] })
    ∧ (∀ (s : Session) (a b : SessionData × GoStore), ReachableSD s a b →
        (a.1.status = Status.Destroyed → a.1.Values = []) →
        (b.1.status = Status.Destroyed → b.1.Values = [])) := by
  constructor
  · intro s sd store now
    rfl
  · intro s a b h inv
    have h2 : Relation.ReflTransGen (MgrStep s) a b := h
    clear h
    induction h2 with
    | refl => exact inv
    | tail _ hstep ih => exact mgrStep_destroyed_values s hstep ih

/-- Witness for the Destroy theorem: a fresh record destroyed at time 5 is
reachable and satisfies the Destroyed-implies-empty-values invariant. -/
theorem destroy_post_and_invariant_witness :
    (sessionDestroy newSession (newSessionData 86400000000000 0) [] 5
      none).2.1.Values = [] :=
  (destroy_post_and_invariant.2 newSession
    (newSessionData 86400000000000 0, [])
    ((sessionDestroy newSession (newSessionData 86400000000000 0) [] 5
        none).2.1,
     (sessionDestroy newSession (newSessionData 86400000000000 0) [] 5
        none).2.2)
    (Relation.ReflTransGen.single
      (MgrStep.destroy (newSessionData 86400000000000 0) [] 5 none))
    (by decide)) (by decide)

/-- Claim C6: a successful RenewToken deletes the old token from the store,
installs the freshly generated token, resets the deadline to now + Lifetime
and sets status Modified while leaving the values unchanged; its only store
effect is the deletion, so the new token is not written by RenewToken. -/
theorem renewToken_effects (s : Session) (sd : SessionData)
    (store : GoStore) (now : Int) (t : String) :
    (sessionRenewToken s sd store now none (Except.ok t)).1 = none
    ∧ (sessionRenewToken s sd store now none (Except.ok t)).2.1
      = { sd with token := t, Deadline := now + s.Lifetime,
                  status := Status.Modified }
    ∧ (sessionRenewToken s sd store now none (Except.ok t)).2.1.Values
      = sd.Values
    ∧ (sessionRenewToken s sd store now none (Except.ok t)).2.2
      = storeDeleteOp store sd.token
    ∧ storeLookup (sessionRenewToken s sd store now none (Except.ok t)).2.2
        sd.token = none
    ∧ (∀ tok : String, tok ≠ sd.token →
        storeLookup
            (sessionRenewToken s sd store now none (Except.ok t)).2.2 tok
          = storeLookup store tok) := by
  refine ⟨rfl, rfl, rfl, rfl, storeLookup_deleteOp_self store sd.token, ?_⟩
  intro tok htok
  exact storeLookup_deleteOp_other store sd.token tok htok

/-- Witness for the RenewToken theorem: renewing away from token A leaves
the unrelated store entry under B untouched. -/
theorem renewToken_effects_witness :
    storeLookup
        (sessionRenewToken newSession
          { Deadline := 0, status := Status.Unmodified, token := "A",
            Values := [] }
          [(("A"), [1], 5), (("B"), [2], 6)] 0 none (Except.ok ("T"))).2.2
        ("B")
      = storeLookup [(("A"), [1], 5), (("B"), [2], 6)] ("B") :=
  (renewToken_effects newSession
    { Deadline := 0, status := Status.Unmodified, token := "A",
      Values := [] }
    [(("A"), [1], 5), (("B"), [2], 6)] 0 ("T")).2.2.2.2.2 ("B") (by decide)

/-- Claim C7: when the context holds no session data, a non-empty token
found by the store but failing to decode makes Load surface the decode
error — it does not fall back to a fresh session; and Load yields a fresh
(empty-token) session only when the presented token is empty or the store
reports not-found. -/
theorem load_decode_error_surfaced (s : Session) (c : Ctx) (token : String)
    (b : Bytes) (dec : Bytes → Except String (Int × ValuesMap))
    (e : String) (now : Int)
    (hctx : ctxGet c s.contextKey = none) :
    (token ≠ "" → dec b = Except.error e →
      sessionLoad s c token (Except.ok (some b)) dec now = Except.error e)
    ∧ (∀ (find : Except String (Option Bytes)) (sd : SessionData) (c2 : Ctx),
        sessionLoad s c token find dec now = Except.ok (sd, c2) →
        sd.token = "" →
        token = "" ∨ find = Except.ok none) := by
  constructor
  · intro ht hd
    simp [sessionLoad, hctx, ht, hd]
  · intro find sd c2 hok hsd
    by_cases ht : token = ""
    · exact Or.inl ht
    · right
      cases find with
      | error e2 => simp [sessionLoad, hctx, ht] at hok
      | ok ob =>
        cases ob with
        | none => rfl
        | some b2 =>
          cases hd : dec b2 with
          | error e2 => simp [sessionLoad, hctx, ht, hd] at hok
          | ok pr =>
            exfalso
            cases pr with
            | mk dl vals =>
              by_cases hit : s.IdleTimeout > 0
              · simp [sessionLoad, hctx, ht, hd, hit] at hok
                rw [← hok.1] at hsd
                exact ht hsd
              · simp [sessionLoad, hctx, ht, hd, hit] at hok
                rw [← hok.1] at hsd
                exact ht hsd

/-- Witness for the Load theorem: a found payload whose decoding fails
surfaces the decode error. -/
theorem load_decode_error_surfaced_witness :
    sessionLoad newSession [] ("x") (Except.ok (some [1]))
      (fun _ => Except.error ("boom")) 0 = Except.error ("boom") :=
  (load_decode_error_surfaced newSession [] ("x") [1]
    (fun _ => Except.error ("boom")) ("boom") 0 rfl).1 (by decide) rfl

/-- Claim C8: every manager operation that resolves the current session data
panics (modelled by `none`) when the request context holds no session data
under the manager's context key. -/
theorem no_session_in_context_panics (s : Session) (c : Ctx)
    (h : ctxGet c s.contextKey = none) :
    ∀ (store : GoStore) (now : Int) (genTok : Except String String)
      (enc : Except String Bytes) (se de : Option String) (k : String)
      (v : GoValue),
      mgrCommit s c store now genTok enc se = none
      ∧ mgrDestroy s c store now de = none
      ∧ mgrPut s c k v = none
      ∧ mgrGet s c k = none
      ∧ mgrPop s c k = none
      ∧ mgrRemove s c k = none
      ∧ mgrExists s c k = none
      ∧ mgrKeys s c = none
      ∧ mgrRenewToken s c store now de genTok = none
      ∧ mgrStatus s c = none
      ∧ mgrToken s c = none
      ∧ mgrGetString s c k = none
      ∧ mgrGetBool s c k = none
      ∧ mgrGetInt s c k = none
      ∧ mgrGetFloat s c k = none
      ∧ mgrGetBytes s c k = none
      ∧ mgrGetTime s c k = none
      ∧ mgrPopString s c k = none
      ∧ mgrPopBool s c k = none
      ∧ mgrPopInt s c k = none
      ∧ mgrPopFloat s c k = none
      ∧ mgrPopBytes s c k = none
      ∧ mgrPopTime s c k = none := by
  intro store now genTok enc se de k v
  simp [mgrCommit, mgrDestroy, mgrPut, mgrGet, mgrPop, mgrRemove, mgrExists,
    mgrKeys, mgrRenewToken, mgrStatus, mgrToken, mgrGetString, mgrGetBool,
    mgrGetInt, mgrGetFloat, mgrGetBytes, mgrGetTime, mgrPopString,
    mgrPopBool, mgrPopInt, mgrPopFloat, mgrPopBytes, mgrPopTime,
    getSessionDataFromContext, h]

/-- Witness for the no-session panic theorem, on the empty context. -/
theorem no_session_in_context_panics_witness :
    mgrCommit newSession [] [] 0 (Except.ok ("T")) (Except.ok [7]) none
      = none
    ∧ mgrStatus newSession [] = none :=
  ⟨(no_session_in_context_panics newSession [] (by decide) [] 0
      (Except.ok ("T")) (Except.ok [7]) none none ("k")
      (GoValue.int 0)).1,
   (no_session_in_context_panics newSession [] (by decide) [] 0
      (Except.ok ("T")) (Except.ok [7]) none none ("k")
      (GoValue.int 0)).2.2.2.2.2.2.2.2.2.1⟩

/-- Claim C9: starting from a response carrying neither caching-header
value, any positive number of WriteSessionCookie calls — by one or several
managers — leaves exactly one Cache-Control header with the exact value
no-cache="Set-Cookie" and exactly one Vary header with the exact value
Cookie; and AddHeaderIfMissing is a no-op whenever the exact value is
already present. -/
theorem save_caching_headers_once
    (calls : List (Session × String × Int × Int)) (h : Headers)
    (hcc : headerCount h ("Cache-Control") ("no-cache=\"Set-Cookie\"") = 0)
    (hv : headerCount h ("Vary") ("Cookie") = 0)
    (hne : calls ≠ []) :
    headerCount (writeSessionCookieSeq calls h)
      ("Cache-Control") ("no-cache=\"Set-Cookie\"") = 1
    ∧ headerCount (writeSessionCookieSeq calls h) ("Vary") ("Cookie") = 1
    ∧ (∀ (h2 : Headers) (k v : String),
        (headerValues h2 k).contains v = true →
        addHeaderIfMissing h2 k v = h2) := by
  refine ⟨?_, ?_, ?_⟩
  · exact (seq_count_one _ _
      (fun s2 t2 e2 n2 h2 => writeSessionCookie_count_cc s2 t2 e2 n2 h2)
      calls h).2 hcc hne
  · exact (seq_count_one _ _
      (fun s2 t2 e2 n2 h2 => writeSessionCookie_count_vary s2 t2 e2 n2 h2)
      calls h).2 hv hne
  · intro h2 k v hcon
    unfold addHeaderIfMissing
    rw [if_pos hcon]

/-- Witness for the caching-header theorem: two saves on one fresh response
still leave one of each caching header. -/
theorem save_caching_headers_once_witness :
    headerCount
      (writeSessionCookieSeq
        [(newSession, ("T"), 1000000000, 0),
         (newSession, ("U"), 1000000000, 0)] [])
      ("Cache-Control") ("no-cache=\"Set-Cookie\"") = 1
    ∧ headerCount
      (writeSessionCookieSeq
        [(newSession, ("T"), 1000000000, 0),
         (newSession, ("U"), 1000000000, 0)] [])
      ("Vary") ("Cookie") = 1 :=
  ⟨(save_caching_headers_once
      [(newSession, ("T"), 1000000000, 0),
       (newSession, ("U"), 1000000000, 0)] [] (by decide) (by decide)
      (by decide)).1,
   (save_caching_headers_once
      [(newSession, ("T"), 1000000000, 0),
       (newSession, ("U"), 1000000000, 0)] [] (by decide) (by decide)
      (by decide)).2.1⟩

/-- Claim C10: when token generation fails (possible only with an empty
token) or encoding fails, Commit returns the empty token, the zero time and
the error, and the store is unchanged — Store.Commit is never reached. -/
theorem commit_failure_no_store_write (s : Session) (sd : SessionData)
    (store : GoStore) (now : Int) (e : String) :
    (sd.token = "" → ∀ (enc : Except String Bytes) (se : Option String),
      sessionCommit s sd store now (Except.error e) enc se
        = ({ token := "", expiry := goZeroTime, err := some e }, sd, store))
    ∧ (sd.token ≠ "" →
        ∀ (g : Except String String) (se : Option String),
        sessionCommit s sd store now g (Except.error e) se
          = ({ token := "", expiry := goZeroTime, err := some e }, sd,
             store))
    ∧ (∀ (t : String) (se : Option String),
        sessionCommit s sd store now (Except.ok t) (Except.error e) se
          = ({ token := "", expiry := goZeroTime, err := some e },
             { sd with token := if sd.token = "" then t else sd.token },
             store)) := by
  refine ⟨?_, ?_, ?_⟩
  · intro hT enc se
    simp [sessionCommit, hT]
  · intro hT g se
    simp [sessionCommit, hT, sessionCommitRest]
  · intro t se
    by_cases hT : sd.token = ""
    · simp [sessionCommit, hT, sessionCommitRest]
    · simp [sessionCommit, hT, sessionCommitRest]

/-- Witness for the Commit failure theorem: a failing token generator on a
fresh session leaves the store untouched and returns the error triple. -/
theorem commit_failure_no_store_write_witness :
    sessionCommit newSession (newSessionData 86400000000000 0)
        [(("A"), [1], 5)] 0 (Except.error ("rng")) (Except.ok [7]) none
      = ({ token := "", expiry := goZeroTime, err := some ("rng") },
         newSessionData 86400000000000 0, [(("A"), [1], 5)]) :=
  (commit_failure_no_store_write newSession (newSessionData 86400000000000 0)
    [(("A"), [1], 5)] 0 ("rng")).1 (by decide) (Except.ok [7]) none

end Scs
